import Mathlib

/-!
Verification of the TestForge test execution engine
(`backend/app/core/engine.py`, `backend/app/main.py`,
`backend/app/models/test_run.py`) against its natural-language
specification.  Each Python function relevant to the checked claims is
shallowly embedded as an executable Lean definition; filesystem and
subprocess effects are made explicit as parameters or state records.
-/

set_option maxHeartbeats 1000000
set_option maxRecDepth 16384

namespace TestForge

/-- Status of a test run (`TestRunStatus` in `models/test_run.py`). -/
inductive TestRunStatus where
  | pending
  | running
  | passed
  | failed
  | cancelled
  | error
deriving DecidableEq, Repr

/-- Status of a single test result (`TestResultStatus` in `models/test_run.py`). -/
inductive TestResultStatus where
  | passed
  | failed
  | skipped
  | error
deriving DecidableEq, Repr

/-- One parsed test outcome: the result dict built by the engine's parsers and
persisted as a `TestResult` row.  Timestamps and durations are modelled in
milliseconds as naturals. -/
structure OutcomeRec where
  test_name : String
  test_file : Option String
  test_suite : Option String
  test_layer : String
  status : TestResultStatus
  duration_ms : Option Nat
  error_message : Option String
  error_stack : Option String
deriving DecidableEq, Repr

/-- A persisted `TestRun` row, restricted to the fields the engine touches.
Timestamps are modelled in milliseconds since an arbitrary epoch. -/
structure RunRec where
  id : String
  status : TestRunStatus
  total_tests : Nat
  passed_tests : Nat
  failed_tests : Nat
  skipped_tests : Nat
  duration_ms : Option Nat
  completed_at : Option Nat
  error_message : Option String
deriving DecidableEq, Repr

/-! ## Result normalizer fallback (`_execute`, engine.py lines 1581-1599) -/

/-- Model of Python's `str.strip()` with no arguments: drop leading and
trailing whitespace.  Implemented by structural recursion on the character
list so that concrete instances evaluate inside the kernel. -/
def pyStrip (s : String) : String :=
  String.mk (((s.toList.dropWhile Char.isWhitespace).reverse.dropWhile
    Char.isWhitespace).reverse)

/-- Count of parsed outcomes carrying a given status, as computed by the
`sum(1 for r in parsed if r["status"] == ...)` expressions in `_execute`. -/
def countStatus (parsed : List OutcomeRec) (s : TestResultStatus) : Nat :=
  (parsed.filter (fun r => r.status = s)).length

/-- Synthetic-outcome fallback of `_execute` (engine.py lines 1581-1599):
if structured parsing produced zero outcomes, one outcome named "Test Run"
is synthesized from the process exit code, with the error text taken from
stderr, falling back to stdout (`(stderr_text or stdout_text)[:500].strip()`). -/
def applyParseFallback (layer : String) (parsed : List OutcomeRec)
    (returncode : Int) (stdoutText stderrText : String) : List OutcomeRec :=
  if parsed.isEmpty then
    let status := if returncode = 0 then TestResultStatus.passed else TestResultStatus.failed
    let combined := if stderrText ≠ "" then stderrText else stdoutText
    let errorSnippet := pyStrip (combined.take 500)
    [{ test_name := "Test Run"
       test_file := none
       test_suite := none
       test_layer := layer
       status := status
       duration_ms := none
       error_message := if errorSnippet = "" then none else some errorSnippet
       error_stack := if combined = "" then none else some combined }]
  else
    parsed

/-! ## Run completion (`_execute`, engine.py lines 1641-1661) -/

/-- Completion step of `_execute` (engine.py lines 1641-1661): the run status
is re-read after the subprocess was drained; a cancellation recorded in the
meantime wins and nothing is overwritten.  Otherwise the aggregate counts,
the completion timestamp, the duration and the terminal status are written;
the terminal status is `passed` exactly when no parsed outcome failed. -/
def completeRun (run : RunRec) (parsed : List OutcomeRec)
    (startedAtMs completedAtMs : Nat) : RunRec :=
  if run.status = TestRunStatus.cancelled then
    run
  else
    { run with
      total_tests := parsed.length
      passed_tests := countStatus parsed TestResultStatus.passed
      failed_tests := countStatus parsed TestResultStatus.failed
      skipped_tests := countStatus parsed TestResultStatus.skipped
      completed_at := some completedAtMs
      duration_ms := some (completedAtMs - startedAtMs)
      status := if countStatus parsed TestResultStatus.failed = 0
                then TestRunStatus.passed else TestRunStatus.failed }

/-! ## Startup recovery (`_recover_orphaned_jobs`, main.py lines 28-66) -/

/-- Per-row effect of the `UPDATE test_runs SET status=FAILED,
error_message='Server restarted during run' WHERE status IN (PENDING, RUNNING)`
statement issued by `_recover_orphaned_jobs` in `main.py`. -/
def recoverRun (r : RunRec) : RunRec :=
  if r.status = TestRunStatus.pending ∨ r.status = TestRunStatus.running then
    { r with status := TestRunStatus.failed
             error_message := some "Server restarted during run" }
  else
    r

/-- Effect of `_recover_orphaned_jobs` (main.py lines 49-58) on the whole
`test_runs` table, modelled as a list of rows. -/
def recoverOrphanedRuns (runs : List RunRec) : List RunRec :=
  runs.map recoverRun

/-! ## Admission control (`_execute`, engine.py lines 1481-1490) -/

/-- Fixed concurrency cap (`MAX_CONCURRENT_RUNS` in engine.py line 66). -/
def MAX_CONCURRENT_RUNS : Nat := 5

/-- Concurrency guard of `_execute` (engine.py lines 1481-1490): when the
process registry already holds `MAX_CONCURRENT_RUNS` entries or more, the run
is failed immediately with a dedicated message and no subprocess is launched.
`some run'` means the request was rejected with the updated run row;
`none` means execution proceeds to launch the subprocess. -/
def admissionGuard (run : RunRec) (registrySize : Nat) (nowMs : Nat) : Option RunRec :=
  if registrySize ≥ MAX_CONCURRENT_RUNS then
    some { run with
           status := TestRunStatus.failed
           error_message := some ("Too many concurrent runs (" ++
             toString MAX_CONCURRENT_RUNS ++ " max)")
           completed_at := some nowMs }
  else
    none

/-! ## Cancellation (`cancel_run`, engine.py lines 137-144) -/

/-- The in-memory handle of one live subprocess.  `returncode = none` means
the process has not exited yet; `killed` records that `proc.kill()` was
issued. -/
structure ProcHandle where
  returncode : Option Int
  killed : Bool
deriving DecidableEq, Repr

/-- The engine's shared state: the module-level `_running_processes` registry
(run id, process handle) plus the persisted `test_runs` rows. -/
structure EngineState where
  registry : List (String × ProcHandle)
  runs : List RunRec
deriving DecidableEq, Repr

/-- `cancel_run` (engine.py lines 137-144): look up the process handle for the
run id; if it exists and has not exited, kill it and return `true`, otherwise
return `false`.  The persisted run rows are never touched. -/
def cancel_run (st : EngineState) (runId : String) : Bool × EngineState :=
  match st.registry.find? (fun e => e.1 == runId) with
  | some e =>
    if e.2.returncode = none then
      (true,
       { st with registry := st.registry.map (fun e' =>
           if e'.1 == runId then (e'.1, { e'.2 with killed := true }) else e') })
    else
      (false, st)
  | none => (false, st)

/-! ## Environment provisioner (`_ensure_project_venv`, engine.py lines 296-406) -/

/-- Filesystem state of one project sandbox, as observed by
`_ensure_project_venv`: whether `.testforge_venv/bin/python` exists and the
content of the `.req_hash` fingerprint file (`none` = file missing). -/
structure VenvFS where
  pythonBinExists : Bool
  hashFileContent : Option String
deriving DecidableEq, Repr

/-- Environmental outcomes of the commands `_ensure_project_venv` would run
and of its filesystem accesses, made explicit: exit status of
`python -m venv`, of the Phase 1 and Phase 2 installs, the requirement
specs collected by `_collect_test_dependencies`, whether
`hash_file.read_text()` and `hash_file.write_text()` raise `OSError`. -/
structure EnsureArgs where
  hashReadOk : Bool
  venvCreateOk : Bool
  phase1Ok : Bool
  testDeps : List String
  phase2Ok : Bool
  stampWriteOk : Bool
deriving DecidableEq, Repr

/-- Result of one `_ensure_project_venv` call: the updated sandbox filesystem,
the returned bin directory (`none` models the `return None` on venv-creation
failure), how many `_stream_install_cmd` invocations were made, whether the
fingerprint fast path was taken, and whether the fingerprint was stamped. -/
structure EnsureResult where
  fs : VenvFS
  ret : Option String
  installInvocations : Nat
  fastPath : Bool
  stamped : Bool
deriving DecidableEq, Repr

/-- Shallow embedding of `_ensure_project_venv` (engine.py lines 296-406).
`currentHash` is the value of `_req_hash(workspace_abs)` for the call.
Fast path (lines 322-331): if the venv python exists and the stored
fingerprint, stripped, equals the current hash, return the bin dir with no
installs.  Otherwise: create the venv (one install invocation; `None` on
failure), run Phase 1 (always) and Phase 2 (only when requirement specs were
collected), and stamp the fingerprint only when every attempted phase
succeeded (lines 390-401). -/
def ensureProjectVenv (fs : VenvFS) (currentHash : String) (a : EnsureArgs) :
    EnsureResult :=
  if fs.pythonBinExists && a.hashReadOk &&
      (match fs.hashFileContent with
       | some c => pyStrip c == currentHash
       | none => false) then
    { fs := fs, ret := some ".testforge_venv/bin", installInvocations := 0,
      fastPath := true, stamped := false }
  else if ¬ a.venvCreateOk then
    { fs := fs, ret := none, installInvocations := 1,
      fastPath := false, stamped := false }
  else
    let fs1 : VenvFS := { fs with pythonBinExists := true }
    let installOk : Bool := a.phase1Ok && (a.testDeps.isEmpty || a.phase2Ok)
    let invocations : Nat := if a.testDeps.isEmpty then 2 else 3
    let doStamp : Bool := installOk && a.stampWriteOk
    { fs := if doStamp then { fs1 with hashFileContent := some currentHash } else fs1
      ret := some ".testforge_venv/bin"
      installInvocations := invocations
      fastPath := false
      stamped := doStamp }

/-! ## Runner detector (`_detect_runner`, engine.py lines 445-634) -/

/-- Model of Python's `str.split()` on single spaces, as used for the
`sys.executable + " -m pytest"` fallback command (engine.py line 594). -/
def pySplit (s : String) : List String :=
  (s.splitOn " ").filter (fun t => t ≠ "")

/-- Filesystem and PATH facts observed by `_detect_runner`, made explicit:
readability of the project root, `shutil.which` results, whether a Playwright
config was found in the searched directories (including the `rglob`
fallback), the first pytest config marker hit `(marker, directory)` in search
order, whether `venv_bin / "pytest"` exists, and the `package.json` test
script probe. -/
structure DetectFS where
  baseExists : Bool
  baseIsDir : Bool
  baseReadable : Bool
  basePath : String
  npx : Option String
  playwrightRoot : Option String
  pytestHit : Option (String × String)
  venvPytestExists : Bool
  whichPytest : Option String
  npm : Option String
  pkgJsonTestScript : Bool
deriving DecidableEq, Repr

/-- Playwright command construction (engine.py lines 510-524): base command
plus config-driven flags, appended only when they differ from the framework
default. -/
def playwrightCmd (npx : String) (parallelWorkers retryCount testTimeout : Nat)
    (browser : Option String) : List String :=
  let cmd := [npx, "playwright", "test", "--reporter=json",
              "--screenshot=only-on-failure", "--output=/app/screenshots/pw-results"]
  let cmd := if parallelWorkers > 1 then cmd ++ ["--workers=" ++ toString parallelWorkers] else cmd
  let cmd := if retryCount > 0 then cmd ++ ["--retries=" ++ toString retryCount] else cmd
  let cmd := if testTimeout ≠ 30000 then cmd ++ ["--timeout=" ++ toString testTimeout] else cmd
  match browser with
  | some b =>
    if b = "chromium" ∨ b = "firefox" ∨ b = "webkit"
    then cmd ++ ["--project=" ++ b] else cmd
  | none => cmd

/-- Selection of the pytest executable (engine.py lines 577-585): prefer the
project venv's `pytest` when a venv bin dir was supplied and contains it,
else `shutil.which("pytest")`, else the `sys.executable + " -m pytest"`
string fallback. -/
def resolvePytestBin (venvBin : Option String) (venvPytestExists : Bool)
    (whichPytest : Option String) (sysExecutable : String) : String :=
  match venvBin with
  | some b =>
    if venvPytestExists then b ++ "/pytest"
    else
      match whichPytest with
      | some p => p
      | none => sysExecutable ++ " -m pytest"
  | none =>
    match whichPytest with
    | some p => p
    | none => sysExecutable ++ " -m pytest"

/-- Pytest command construction (engine.py lines 586-602): split the binary
string when it contains a space (the `-m pytest` fallback), add the JSON
report and plugin flags, then the config-driven flags when non-default. -/
def pytestCmd (bin : String) (parallelWorkers retryCount testTimeout : Nat) :
    List String :=
  let reportArgs := ["--json-report", "--json-report-file=.testforge_report.json",
                     "-v", "-p", "no:base_url"]
  let cmd := if bin.toList.contains ' ' then pySplit bin ++ reportArgs else bin :: reportArgs
  let cmd := if parallelWorkers > 1 then cmd ++ ["-n", toString parallelWorkers] else cmd
  let cmd := if retryCount > 0 then cmd ++ ["--count=" ++ toString retryCount] else cmd
  if testTimeout ≠ 30000 then cmd ++ ["--timeout=" ++ toString (testTimeout / 1000)] else cmd

/-- Shallow embedding of `_detect_runner` (engine.py lines 445-634), returning
`some (layer, command, cwd)` or `none` for the trailing `RuntimeError`
raises.  The search order is: Playwright (only when `npx` is installed and a
config was found), then pytest config markers, then a `package.json` test
script (only when `npm` is installed). -/
def detectRunner (fs : DetectFS) (venvBin : Option String) (sysExecutable : String)
    (parallelWorkers retryCount testTimeout : Nat) (browser : Option String) :
    Option (String × List String × String) :=
  if ¬ fs.baseExists ∨ ¬ fs.baseIsDir ∨ ¬ fs.baseReadable then
    none
  else
    match fs.npx, fs.playwrightRoot with
    | some npx, some root =>
      some ("frontend", playwrightCmd npx parallelWorkers retryCount testTimeout browser, root)
    | _, _ =>
      match fs.pytestHit with
      | some (_, dir) =>
        let bin := resolvePytestBin venvBin fs.venvPytestExists fs.whichPytest sysExecutable
        some ("backend", pytestCmd bin parallelWorkers retryCount testTimeout, dir)
      | none =>
        match fs.npm with
        | some npm =>
          if fs.pkgJsonTestScript then
            some ("frontend", [npm, "run", "test", "--", "--reporter=json"], fs.basePath)
          else
            none
        | none => none

/-! ## Credential and environment injector (`_execute`, engine.py lines
1302-1346 and 1368-1387, and `_fix_host_url`, lines 42-53) -/

/-- Lookup in the subprocess environment, modelled as an association list with
Python-dict first-match semantics. -/
def envLookup (env : List (String × String)) (k : String) : Option String :=
  (env.find? (fun e => e.1 == k)).map (fun e => e.2)

/-- The `key in env_vars` membership test. -/
def envContains (env : List (String × String)) (k : String) : Bool :=
  (env.find? (fun e => e.1 == k)).isSome

/-- The `env_vars[key] = value` dict assignment: replace the value in place
when the key is present, append otherwise. -/
def envSet (env : List (String × String)) (k v : String) : List (String × String) :=
  if envContains env k then
    env.map (fun e => if e.1 == k then (e.1, v) else e)
  else
    env ++ [(k, v)]

/-- The `if key not in env_vars: env_vars[key] = value` pattern used
throughout `_execute` for every non-token variable. -/
def envSetIfAbsent (env : List (String × String)) (k v : String) :
    List (String × String) :=
  if envContains env k then env else env ++ [(k, v)]

/-- Python's `s.startswith(p)` test, implemented over the character lists so
that concrete instances evaluate inside the kernel. -/
def strStartsWith (s p : String) : Bool :=
  p.toList.isPrefixOf s.toList

/-- `_fix_host_url` (engine.py lines 46-53): a no-op outside Docker or for
non-HTTP values; in Docker, HTTP(S) URLs get their localhost/loopback host
rewritten, modelled by the abstract `rewrite` parameter standing for the
`_LOCALHOST_RE.sub` call. -/
def fixHostUrl (isDocker : Bool) (rewrite : String → String) (url : String) :
    String :=
  if ¬ isDocker ∨ ¬ (strStartsWith url "http://" ∨ strStartsWith url "https://") then
    url
  else
    rewrite url

/-- Python's `s.strip("'\x22")`: drop leading and trailing single/double
quote characters. -/
def stripQuoteChars (s : String) : String :=
  let isQuote : Char → Bool := fun c => c = '\'' ∨ c = '"'
  String.mk (((s.toList.dropWhile isQuote).reverse.dropWhile isQuote).reverse)

/-- Line parsing of the `.env` loading loop (engine.py lines 1375-1381):
strip the line, skip blanks, comments and lines without `=`, partition on the
first `=`, strip the key, strip and unquote the value.  `none` means the line
is skipped. -/
def parseDotenvLine (rawLine : String) : Option (String × String) :=
  let line := pyStrip rawLine
  if line = "" ∨ strStartsWith line "#" ∨ ¬ line.toList.contains '=' then
    none
  else
    let chars := line.toList
    let key := pyStrip (String.mk (chars.takeWhile (fun c => c ≠ '=')))
    let val := stripQuoteChars (pyStrip (String.mk ((chars.dropWhile (fun c => c ≠ '=')).drop 1)))
    some (key, val)

/-- One iteration of the `.env` loading loop (engine.py lines 1375-1384):
a parsed `key=value` line is stored with `_fix_host_url` applied, only when
the key is non-empty and not already set. -/
def applyDotenvLine (fix : String → String) (env : List (String × String))
    (rawLine : String) : List (String × String) :=
  match parseDotenvLine rawLine with
  | none => env
  | some (key, val) =>
    if key ≠ "" ∧ ¬ envContains env key then
      envSet env key (fix val)
    else
      env

/-- The `.env` / `.env.local` / `.env.test` loading loop of `_execute`
(engine.py lines 1371-1387): each discovered file's lines are folded in file
order. -/
def loadDotenv (fix : String → String) (dotenvFiles : List (List String))
    (env : List (String × String)) : List (String × String) :=
  dotenvFiles.foldl (fun e lines => lines.foldl (applyDotenvLine fix) e) env

/-- The project configuration fields consumed by `_execute` when building the
subprocess environment.  Empty strings model unset values, matching the
`or ""` / truthiness checks of the source.  `test_login_password` is the
decrypted password. -/
structure ProjectCfg where
  env_vars : List (String × String)
  test_login_email : String
  test_login_password : String
  backend_url : String
  frontend_url : String
deriving DecidableEq, Repr

/-- One `if value: if key not in env_vars: env_vars[key] = value` step of the
credential/URL block, with the truthiness guard made explicit. -/
def setIfAbsentWhen (c : Bool) (k v : String) (env : List (String × String)) :
    List (String × String) :=
  if c then envSetIfAbsent env k v else env

/-- The auth-token step of `_execute` (engine.py lines 1340-1346): the login
is attempted only when credentials and a backend URL are configured and no
token was configured explicitly; when `loginToken` is obtained the three
token variables are assigned unconditionally. -/
def applyLoginToken (email password backendUrl : String)
    (loginToken : Option String) (env : List (String × String)) :
    List (String × String) :=
  if email ≠ "" ∧ password ≠ "" ∧ backendUrl ≠ "" ∧
      ¬ envContains env "TEST_AUTH_TOKEN" then
    match loginToken with
    | some t =>
      envSet (envSet (envSet env "TEST_AUTH_TOKEN" t) "ACCESS_TOKEN" t)
        "AUTHORIZATION" ("Bearer " ++ t)
    | none => env
  else env

/-- The `if config:` block of `_execute` (engine.py lines 1312-1346):
credentials, computed base URLs (`BACKEND_URL`, `API_BASE_URL`,
`FRONTEND_URL`, each only when not already configured) and the best-effort
auth token.  `loginToken` is the abstract result of `_try_get_auth_token`
(`none` = all login attempts failed). -/
def injectCredentials (cfg : ProjectCfg) (loginToken : Option String)
    (fix : String → String) (env : List (String × String)) :
    List (String × String) :=
  let email := cfg.test_login_email
  let password := cfg.test_login_password
  let backendUrl := fix cfg.backend_url
  let env1 := setIfAbsentWhen (email != "") "TEST_LOGIN_EMAIL" email env
  let env2 := setIfAbsentWhen (password != "") "TEST_LOGIN_PASSWORD" password env1
  let env3 := setIfAbsentWhen (backendUrl != "") "BACKEND_URL" backendUrl env2
  let env4 := setIfAbsentWhen (backendUrl != "") "API_BASE_URL" backendUrl env3
  let env5 := setIfAbsentWhen (cfg.frontend_url != "") "FRONTEND_URL"
    (fix cfg.frontend_url) env4
  applyLoginToken email password backendUrl loginToken env5

/-- Subprocess environment construction of `_execute` (engine.py lines
1302-1346 and 1368-1387): start from the configured `env_vars` dict, apply
the `if config:` credential/URL block, then load `.env`-style files from the
synced workspace.  `hasConfig` models `config is not None`; `isWorkspace`
models the `is_workspace` guard of the dotenv section. -/
def buildEnv (hasConfig : Bool) (cfg : ProjectCfg) (loginToken : Option String)
    (isWorkspace : Bool) (dotenvFiles : List (List String))
    (isDocker : Bool) (rewrite : String → String) : List (String × String) :=
  let fix := fixHostUrl isDocker rewrite
  let env0 := if hasConfig then cfg.env_vars else []
  let env1 := if hasConfig then injectCredentials cfg loginToken fix env0 else env0
  if isWorkspace then loadDotenv fix dotenvFiles env1 else env1

/-- A concrete project configuration used to instantiate the environment
theorems on closed inputs. -/
def sampleCfg : ProjectCfg :=
  { env_vars := [("FOO", "bar")], test_login_email := "",
    test_login_password := "", backend_url := "http://b:1",
    frontend_url := "http://f:3" }

/-- A concrete run row used to instantiate the theorems on closed inputs. -/
def sampleRun : RunRec :=
  { id := "run-1", status := TestRunStatus.running, total_tests := 0,
    passed_tests := 0, failed_tests := 0, skipped_tests := 0,
    duration_ms := none, completed_at := none, error_message := none }

/-! ## Theorems -/

/-- C1: whenever structured parsing yields zero outcomes, the normalizer
produces exactly one synthetic outcome whose status is `passed` when the exit
code is 0 and `failed` otherwise, whose error text is a snippet of stderr
falling back to stdout when stderr is empty; and the parsing stage never
yields an empty outcome list. -/
theorem C1_parse_fallback_single_outcome (layer : String)
    (parsed : List OutcomeRec) (returncode : Int) (stdoutText stderrText : String) :
    applyParseFallback layer parsed returncode stdoutText stderrText ≠ [] ∧
    (parsed = [] →
      ∃ o : OutcomeRec,
        applyParseFallback layer parsed returncode stdoutText stderrText = [o] ∧
        o.status = (if returncode = 0 then TestResultStatus.passed
                    else TestResultStatus.failed) ∧
        o.error_message =
          (let combined := if stderrText ≠ "" then stderrText else stdoutText
           let errorSnippet := pyStrip (combined.take 500)
           if errorSnippet = "" then none else some errorSnippet) ∧
        o.test_name = "Test Run") := by
  constructor
  · cases parsed with
    | nil => simp [applyParseFallback]
    | cons a l => simp [applyParseFallback]
  · intro h
    subst h
    refine ⟨_, rfl, rfl, ?_, rfl⟩
    simp only [applyParseFallback]

/-- Witness for C1 at a concrete failing parse: exit code 2, empty stdout,
stderr "boom". -/
theorem C1_parse_fallback_single_outcome_witness :
    ∃ o : OutcomeRec,
      applyParseFallback "backend" [] 2 "" "boom" = [o] ∧
      o.status = (if (2 : Int) = 0 then TestResultStatus.passed
                  else TestResultStatus.failed) ∧
      o.error_message =
        (let combined := if "boom" ≠ "" then "boom" else ""
         let errorSnippet := pyStrip (combined.take 500)
         if errorSnippet = "" then none else some errorSnippet) ∧
      o.test_name = "Test Run" :=
  (C1_parse_fallback_single_outcome "backend" [] 2 "" "boom").2 rfl

/-- C5: a run request arriving when the process registry already holds the
fixed cap of 5 entries is failed immediately with the dedicated "too many
concurrent runs" message and a completion timestamp, and no subprocess is
launched (the guard short-circuits before `create_subprocess_exec`). -/
theorem C5_admission_control (run : RunRec) (registrySize nowMs : Nat)
    (h : registrySize = MAX_CONCURRENT_RUNS) :
    admissionGuard run registrySize nowMs =
      some { run with
             status := TestRunStatus.failed
             error_message := some "Too many concurrent runs (5 max)"
             completed_at := some nowMs } := by
  subst h
  unfold admissionGuard
  rw [if_pos (le_refl MAX_CONCURRENT_RUNS)]
  have hs : "Too many concurrent runs (" ++ toString MAX_CONCURRENT_RUNS ++ " max)" =
      "Too many concurrent runs (5 max)" := by decide
  rw [hs]

/-- Witness for C5: the sample running row is rejected when five processes
are registered. -/
theorem C5_admission_control_witness :
    admissionGuard sampleRun 5 1234 =
      some { sampleRun with
             status := TestRunStatus.failed
             error_message := some "Too many concurrent runs (5 max)"
             completed_at := some 1234 } :=
  C5_admission_control sampleRun 5 1234 rfl

/-- C6: every run persisted as pending or running is failed with the
restart-specific message by the startup recovery pass, hence left in a
terminal state. -/
theorem C6_startup_recovery (runs : List RunRec) (i : Nat) (r : RunRec)
    (hget : runs[i]? = some r)
    (hst : r.status = TestRunStatus.pending ∨ r.status = TestRunStatus.running) :
    (recoverOrphanedRuns runs)[i]? =
      some { r with
             status := TestRunStatus.failed
             error_message := some "Server restarted during run" } := by
  unfold recoverOrphanedRuns
  rw [List.getElem?_map, hget, Option.map_some']
  unfold recoverRun
  rw [if_pos hst]

/-- Witness for C6: a one-row table holding a running run. -/
theorem C6_startup_recovery_witness :
    (recoverOrphanedRuns [sampleRun])[0]? =
      some { sampleRun with
             status := TestRunStatus.failed
             error_message := some "Server restarted during run" } :=
  C6_startup_recovery [sampleRun] 0 sampleRun rfl (Or.inr rfl)

/-- C8: when the completion path re-reads the run status and finds it
cancelled, nothing is written: counts, duration, timestamps and the
cancelled status are all preserved exactly. -/
theorem C8_cancellation_wins (run : RunRec) (parsed : List OutcomeRec)
    (startedAtMs completedAtMs : Nat)
    (h : run.status = TestRunStatus.cancelled) :
    completeRun run parsed startedAtMs completedAtMs = run := by
  unfold completeRun
  rw [if_pos h]

/-- Witness for C8 on a concrete cancelled run with a nonempty outcome
batch. -/
theorem C8_cancellation_wins_witness :
    completeRun { sampleRun with status := TestRunStatus.cancelled }
      [{ test_name := "t", test_file := none, test_suite := none,
         test_layer := "backend", status := TestResultStatus.failed,
         duration_ms := none, error_message := none, error_stack := none }]
      100 200 =
      { sampleRun with status := TestRunStatus.cancelled } :=
  C8_cancellation_wins _ _ 100 200 rfl

/-- C10: a normally completing run is marked passed exactly when zero parsed
outcomes have status failed; in particular a run whose outcomes are all
errors is still marked passed. -/
theorem C10_passed_iff_no_failed (run : RunRec) (parsed : List OutcomeRec)
    (startedAtMs completedAtMs : Nat)
    (h : run.status ≠ TestRunStatus.cancelled) :
    ((completeRun run parsed startedAtMs completedAtMs).status =
        TestRunStatus.passed ↔
      countStatus parsed TestResultStatus.failed = 0) ∧
    ((∀ o ∈ parsed, o.status = TestResultStatus.error) →
      (completeRun run parsed startedAtMs completedAtMs).status =
        TestRunStatus.passed) := by
  have hcr :
      (completeRun run parsed startedAtMs completedAtMs).status =
        (if countStatus parsed TestResultStatus.failed = 0
         then TestRunStatus.passed else TestRunStatus.failed) := by
    unfold completeRun
    rw [if_neg h]
  constructor
  · rw [hcr]
    by_cases hf : countStatus parsed TestResultStatus.failed = 0 <;>
      simp [hf]
  · intro hall
    have hzero : countStatus parsed TestResultStatus.failed = 0 := by
      unfold countStatus
      rw [List.length_eq_zero, List.filter_eq_nil_iff]
      intro o ho
      simp [hall o ho]
    rw [hcr, if_pos hzero]

/-- Mapping a key-preserving function over a registry commutes with looking a
key up via `find?`. -/
theorem registry_find?_map (l : List (String × ProcHandle)) (runId : String)
    (g : String × ProcHandle → String × ProcHandle)
    (hg : ∀ e, (g e).1 = e.1) :
    (l.map g).find? (fun e => e.1 == runId) =
      (l.find? (fun e => e.1 == runId)).map g := by
  induction l with
  | nil => rfl
  | cons a t ih =>
    cases hk : (a.1 == runId) with
    | true => simp [hg, hk]
    | false => simp [hg, hk, ih]

/-- C7: `cancel_run` never touches the persisted run rows; for a run id with
no registered handle, or whose registered process has already exited, it
returns `false` and leaves the whole engine state unchanged; for a run id
with a live handle it returns `true` and kills that process. -/
theorem C7_cancel_semantics (st : EngineState) (runId : String) :
    ((cancel_run st runId).2.runs = st.runs) ∧
    (st.registry.find? (fun e => e.1 == runId) = none →
      cancel_run st runId = (false, st)) ∧
    (∀ e, st.registry.find? (fun e => e.1 == runId) = some e →
      e.2.returncode ≠ none → cancel_run st runId = (false, st)) ∧
    (∀ e, st.registry.find? (fun e => e.1 == runId) = some e →
      e.2.returncode = none →
      (cancel_run st runId).1 = true ∧
      ((cancel_run st runId).2.registry.find? (fun e => e.1 == runId)).map
        (fun e => e.2.killed) = some true) := by
  refine ⟨?_, ?_, ?_, ?_⟩
  · cases hf : st.registry.find? (fun e => e.1 == runId) with
    | none => simp [cancel_run, hf]
    | some e =>
      by_cases hrc : e.2.returncode = none
      · simp [cancel_run, hf, hrc]
      · simp [cancel_run, hf, hrc]
  · intro hf
    simp [cancel_run, hf]
  · intro e hf hrc
    simp [cancel_run, hf, hrc]
  · intro e hf hrc
    have hkey : (e.1 == runId) = true := by
      have hx := List.find?_some hf
      simpa using hx
    refine ⟨?_, ?_⟩
    · simp [cancel_run, hf, hrc]
    · simp only [cancel_run, hf, hrc, if_pos]
      rw [registry_find?_map st.registry runId _
            (fun e' => by
              by_cases hb : (e'.1 == runId) = true
              · simp [hb]
              · simp [hb])]
      rw [hf]
      have heq : e.1 = runId := by simpa using hkey
      simp [heq]

/-- Witness for C7: a registry holding one live and one exited process plus a
run row; cancelling the live one returns true and kills it. -/
theorem C7_cancel_semantics_witness :
    (cancel_run
        { registry := [("r1", { returncode := none, killed := false }),
                       ("r2", { returncode := some 0, killed := false })],
          runs := [sampleRun] } "r1").1 = true ∧
    (((cancel_run
        { registry := [("r1", { returncode := none, killed := false }),
                       ("r2", { returncode := some 0, killed := false })],
          runs := [sampleRun] } "r1").2.registry.find?
        (fun e => e.1 == "r1")).map (fun e => e.2.killed) = some true) :=
  (C7_cancel_semantics
      { registry := [("r1", { returncode := none, killed := false }),
                     ("r2", { returncode := some 0, killed := false })],
        runs := [sampleRun] } "r1").2.2.2
    ("r1", { returncode := none, killed := false }) (by decide) rfl

/-- Fast path of `_ensure_project_venv`: when the venv python exists and the
stored fingerprint strips to the current hash, the call returns the bin dir
with zero install invocations and an unchanged sandbox. -/
theorem ensure_fast_path (fs : VenvFS) (h : String) (a : EnsureArgs)
    (hbin : fs.pythonBinExists = true) (hread : a.hashReadOk = true)
    (hcontent : fs.hashFileContent = some h) (htrim : pyStrip h = h) :
    ensureProjectVenv fs h a =
      { fs := fs, ret := some ".testforge_venv/bin", installInvocations := 0,
        fastPath := true, stamped := false } := by
  unfold ensureProjectVenv
  rw [if_pos]
  rw [hbin, hread, hcontent]
  simp [htrim]

/-- C3: provisioning is idempotent — if a first `ensure()` call left the
sandbox with the venv python present and the fingerprint stamped to the
current (whitespace-free) hash, a second call with unchanged manifests and a
readable fingerprint file takes the fast path: zero install invocations, the
bin dir returned, and the sandbox state untouched. -/
theorem C3_provisioning_idempotent (fs : VenvFS) (h : String) (a1 a2 : EnsureArgs)
    (htrim : pyStrip h = h)
    (hread : a2.hashReadOk = true)
    (hstamp : (ensureProjectVenv fs h a1).fs.hashFileContent = some h)
    (hbin : (ensureProjectVenv fs h a1).fs.pythonBinExists = true) :
    ensureProjectVenv (ensureProjectVenv fs h a1).fs h a2 =
      { fs := (ensureProjectVenv fs h a1).fs,
        ret := some ".testforge_venv/bin",
        installInvocations := 0, fastPath := true, stamped := false } :=
  ensure_fast_path (ensureProjectVenv fs h a1).fs h a2 hbin hread hstamp htrim

/-- Witness for C3: first call provisions a fresh sandbox successfully, the
second call is a zero-install fast path. -/
theorem C3_provisioning_idempotent_witness :
    ensureProjectVenv
        (ensureProjectVenv { pythonBinExists := false, hashFileContent := none }
          "d41d8cd98f00b204e9800998ecf8427e"
          { hashReadOk := true, venvCreateOk := true, phase1Ok := true,
            testDeps := ["httpx"], phase2Ok := true, stampWriteOk := true }).fs
        "d41d8cd98f00b204e9800998ecf8427e"
        { hashReadOk := true, venvCreateOk := true, phase1Ok := true,
          testDeps := ["httpx"], phase2Ok := true, stampWriteOk := true } =
      { fs := (ensureProjectVenv { pythonBinExists := false, hashFileContent := none }
          "d41d8cd98f00b204e9800998ecf8427e"
          { hashReadOk := true, venvCreateOk := true, phase1Ok := true,
            testDeps := ["httpx"], phase2Ok := true, stampWriteOk := true }).fs,
        ret := some ".testforge_venv/bin",
        installInvocations := 0, fastPath := true, stamped := false } :=
  C3_provisioning_idempotent
    { pythonBinExists := false, hashFileContent := none }
    "d41d8cd98f00b204e9800998ecf8427e"
    { hashReadOk := true, venvCreateOk := true, phase1Ok := true,
      testDeps := ["httpx"], phase2Ok := true, stampWriteOk := true }
    { hashReadOk := true, venvCreateOk := true, phase1Ok := true,
      testDeps := ["httpx"], phase2Ok := true, stampWriteOk := true }
    (by decide) rfl (by decide) (by decide)

/-- C4: on an install-path call whose venv creation succeeded and whose
fingerprint write does not hit an I/O error, the fingerprint is stamped if
and only if Phase 1 succeeded and Phase 2 (when attempted) succeeded; when it
is not stamped the fingerprint file is unchanged, and a subsequent call on
the same hash re-attempts provisioning instead of taking the fast path. -/
theorem C4_stamp_iff_both_phases (fs : VenvFS) (h : String) (a : EnsureArgs)
    (hfp : (ensureProjectVenv fs h a).fastPath = false)
    (hvenv : a.venvCreateOk = true)
    (hw : a.stampWriteOk = true) :
    ((ensureProjectVenv fs h a).stamped = true ↔
      (a.phase1Ok = true ∧ (a.testDeps ≠ [] → a.phase2Ok = true))) ∧
    ((ensureProjectVenv fs h a).stamped = false →
      (ensureProjectVenv fs h a).fs.hashFileContent = fs.hashFileContent) ∧
    ((ensureProjectVenv fs h a).stamped = false →
      (∀ c, fs.hashFileContent = some c → pyStrip c ≠ h) →
      ∀ a2 : EnsureArgs,
        (ensureProjectVenv (ensureProjectVenv fs h a).fs h a2).fastPath = false) := by
  by_cases hfast : (fs.pythonBinExists && a.hashReadOk &&
      (match fs.hashFileContent with
       | some c => pyStrip c == h
       | none => false)) = true
  · exfalso
    unfold ensureProjectVenv at hfp
    rw [if_pos hfast] at hfp
    simp at hfp
  · have hres : ensureProjectVenv fs h a =
        { fs := if a.phase1Ok && (a.testDeps.isEmpty || a.phase2Ok) && a.stampWriteOk
                then { fs with pythonBinExists := true, hashFileContent := some h }
                else { fs with pythonBinExists := true }
          ret := some ".testforge_venv/bin"
          installInvocations := if a.testDeps.isEmpty then 2 else 3
          fastPath := false
          stamped := a.phase1Ok && (a.testDeps.isEmpty || a.phase2Ok) && a.stampWriteOk } := by
      unfold ensureProjectVenv
      rw [if_neg hfast, if_neg (by rw [hvenv]; exact fun hk => hk rfl)]
    refine ⟨?_, ?_, ?_⟩
    · rw [hres]
      show (a.phase1Ok && (a.testDeps.isEmpty || a.phase2Ok) && a.stampWriteOk) = true ↔ _
      rw [hw, Bool.and_true]
      constructor
      · intro hb
        have hb' := Bool.and_eq_true_iff.mp hb
        refine ⟨hb'.1, fun hne => ?_⟩
        rcases Bool.or_eq_true_iff.mp hb'.2 with hemp | hp2
        · exact absurd (List.isEmpty_iff.mp hemp) hne
        · exact hp2
      · intro hps
        rw [hps.1, Bool.true_and]
        by_cases hd : a.testDeps.isEmpty
        · rw [hd, Bool.true_or]
        · rw [hps.2 (fun hnil => hd (by rw [hnil]; rfl)), Bool.or_true]
    · intro hs
      have hs' : (a.phase1Ok && (a.testDeps.isEmpty || a.phase2Ok) && a.stampWriteOk)
          = false := by
        rw [hres] at hs
        exact hs
      rw [hres]
      show ((if (a.phase1Ok && (a.testDeps.isEmpty || a.phase2Ok) && a.stampWriteOk)
             then { fs with pythonBinExists := true, hashFileContent := some h }
             else { fs with pythonBinExists := true } : VenvFS)).hashFileContent =
        fs.hashFileContent
      rw [if_neg (by intro hk; rw [hs'] at hk; exact Bool.false_ne_true hk)]
    · intro hs hmiss a2
      have hs' : (a.phase1Ok && (a.testDeps.isEmpty || a.phase2Ok) && a.stampWriteOk)
          = false := by
        rw [hres] at hs
        exact hs
      rw [hres]
      show (ensureProjectVenv
              (if (a.phase1Ok && (a.testDeps.isEmpty || a.phase2Ok) && a.stampWriteOk)
               then { fs with pythonBinExists := true, hashFileContent := some h }
               else { fs with pythonBinExists := true }) h a2).fastPath = false
      rw [if_neg (by intro hk; rw [hs'] at hk; exact Bool.false_ne_true hk)]
      have hcond : (({ fs with pythonBinExists := true } : VenvFS).pythonBinExists &&
          a2.hashReadOk &&
          (match ({ fs with pythonBinExists := true } : VenvFS).hashFileContent with
           | some c => pyStrip c == h
           | none => false)) = false := by
        show (true && a2.hashReadOk &&
          (match fs.hashFileContent with
           | some c => pyStrip c == h
           | none => false)) = false
        cases hfc : fs.hashFileContent with
        | none => simp
        | some c =>
          have hne := hmiss c hfc
          simp [hne]
      unfold ensureProjectVenv
      rw [if_neg (by intro hk; rw [hcond] at hk; exact Bool.false_ne_true hk)]
      split
      · rfl
      · rfl

/-- Witness for C4 at a concrete failing Phase 1 on a fresh sandbox. -/
theorem C4_stamp_iff_both_phases_witness :
    ((ensureProjectVenv { pythonBinExists := false, hashFileContent := none } "abc"
        { hashReadOk := true, venvCreateOk := true, phase1Ok := false,
          testDeps := [], phase2Ok := true, stampWriteOk := true }).stamped = true ↔
      (({ hashReadOk := true, venvCreateOk := true, phase1Ok := false,
          testDeps := [], phase2Ok := true, stampWriteOk := true } : EnsureArgs).phase1Ok = true ∧
        (({ hashReadOk := true, venvCreateOk := true, phase1Ok := false,
            testDeps := [], phase2Ok := true, stampWriteOk := true } : EnsureArgs).testDeps ≠ [] →
          ({ hashReadOk := true, venvCreateOk := true, phase1Ok := false,
             testDeps := [], phase2Ok := true, stampWriteOk := true } : EnsureArgs).phase2Ok = true))) ∧
    ((ensureProjectVenv { pythonBinExists := false, hashFileContent := none } "abc"
        { hashReadOk := true, venvCreateOk := true, phase1Ok := false,
          testDeps := [], phase2Ok := true, stampWriteOk := true }).stamped = false →
      (ensureProjectVenv { pythonBinExists := false, hashFileContent := none } "abc"
        { hashReadOk := true, venvCreateOk := true, phase1Ok := false,
          testDeps := [], phase2Ok := true, stampWriteOk := true }).fs.hashFileContent =
        ({ pythonBinExists := false, hashFileContent := none } : VenvFS).hashFileContent) ∧
    ((ensureProjectVenv { pythonBinExists := false, hashFileContent := none } "abc"
        { hashReadOk := true, venvCreateOk := true, phase1Ok := false,
          testDeps := [], phase2Ok := true, stampWriteOk := true }).stamped = false →
      (∀ c, ({ pythonBinExists := false, hashFileContent := none } : VenvFS).hashFileContent =
          some c → pyStrip c ≠ "abc") →
      ∀ a2 : EnsureArgs,
        (ensureProjectVenv
          (ensureProjectVenv { pythonBinExists := false, hashFileContent := none } "abc"
            { hashReadOk := true, venvCreateOk := true, phase1Ok := false,
              testDeps := [], phase2Ok := true, stampWriteOk := true }).fs
          "abc" a2).fastPath = false) :=
  C4_stamp_iff_both_phases
    { pythonBinExists := false, hashFileContent := none } "abc"
    { hashReadOk := true, venvCreateOk := true, phase1Ok := false,
      testDeps := [], phase2Ok := true, stampWriteOk := true }
    (by decide) rfl rfl

/-- C9: for a project where the Playwright branch does not fire (no `npx` or
no Playwright config) and a pytest config marker is found, `_detect_runner`
returns the backend layer with the command rooted at the marker's directory;
the command's executable is the sandbox venv's local `pytest` when a venv bin
dir was supplied and contains it, otherwise the system `pytest` found on
PATH, otherwise the `python -m pytest` fallback. -/
theorem C9_pytest_detection (fs : DetectFS) (venvBin : Option String)
    (sysExecutable : String) (parallelWorkers retryCount testTimeout : Nat)
    (browser : Option String) (cfg dir : String)
    (h1 : fs.baseExists = true) (h2 : fs.baseIsDir = true)
    (h3 : fs.baseReadable = true)
    (h4 : fs.npx = none ∨ fs.playwrightRoot = none)
    (h5 : fs.pytestHit = some (cfg, dir)) :
    detectRunner fs venvBin sysExecutable parallelWorkers retryCount testTimeout browser =
      some ("backend",
        pytestCmd (resolvePytestBin venvBin fs.venvPytestExists fs.whichPytest sysExecutable)
          parallelWorkers retryCount testTimeout,
        dir) ∧
    (∀ b, venvBin = some b → fs.venvPytestExists = true →
      resolvePytestBin venvBin fs.venvPytestExists fs.whichPytest sysExecutable =
        b ++ "/pytest") ∧
    (∀ p, fs.whichPytest = some p → (venvBin = none ∨ fs.venvPytestExists = false) →
      resolvePytestBin venvBin fs.venvPytestExists fs.whichPytest sysExecutable = p) ∧
    ((venvBin = none ∨ fs.venvPytestExists = false) → fs.whichPytest = none →
      resolvePytestBin venvBin fs.venvPytestExists fs.whichPytest sysExecutable =
        sysExecutable ++ " -m pytest") ∧
    (∀ bin : String, bin.toList.contains ' ' = false →
      (pytestCmd bin parallelWorkers retryCount testTimeout).head? = some bin) := by
  refine ⟨?_, ?_, ?_, ?_, ?_⟩
  · unfold detectRunner
    rw [if_neg (by simp [h1, h2, h3])]
    rcases h4 with hnpx | hpr
    · rw [hnpx]
      cases hpw : fs.playwrightRoot with
      | none => rw [h5]
      | some root => rw [h5]
    · rw [hpr]
      cases hnp : fs.npx with
      | none => rw [h5]
      | some npx => rw [h5]
  · intro b hb hv
    simp [resolvePytestBin, hb, hv]
  · intro p hp hd
    rcases hd with hvb | hve
    · simp [resolvePytestBin, hvb, hp]
    · cases hvb : venvBin with
      | none => simp [resolvePytestBin, hp]
      | some b => simp [resolvePytestBin, hve, hp]
  · intro hd hp
    rcases hd with hvb | hve
    · simp [resolvePytestBin, hvb, hp]
    · cases hvb : venvBin with
      | none => simp [resolvePytestBin, hp]
      | some b => simp [resolvePytestBin, hve, hp]
  · intro bin hsp
    have hbase : (if bin.toList.contains ' ' then
        pySplit bin ++ ["--json-report", "--json-report-file=.testforge_report.json",
          "-v", "-p", "no:base_url"]
      else bin :: ["--json-report", "--json-report-file=.testforge_report.json",
          "-v", "-p", "no:base_url"]) =
        bin :: ["--json-report", "--json-report-file=.testforge_report.json",
          "-v", "-p", "no:base_url"] := by
      rw [if_neg (by rw [hsp]; exact Bool.false_ne_true)]
    simp only [pytestCmd]
    rw [hbase]
    split <;> split <;> split <;> simp

/-- Witness for C9: a pytest-only project with a supplied venv containing
pytest. -/
theorem C9_pytest_detection_witness :
    detectRunner
        { baseExists := true, baseIsDir := true, baseReadable := true,
          basePath := "/ws/p", npx := none, playwrightRoot := none,
          pytestHit := some ("pyproject.toml", "/ws/p"),
          venvPytestExists := true, whichPytest := none,
          npm := none, pkgJsonTestScript := false }
        (some "/ws/p/.testforge_venv/bin") "/usr/local/bin/python3" 1 0 30000 none =
      some ("backend",
        pytestCmd (resolvePytestBin (some "/ws/p/.testforge_venv/bin") true none
          "/usr/local/bin/python3") 1 0 30000,
        "/ws/p") ∧
    resolvePytestBin (some "/ws/p/.testforge_venv/bin") true none "/usr/local/bin/python3" =
      "/ws/p/.testforge_venv/bin" ++ "/pytest" ∧
    (pytestCmd "/ws/p/.testforge_venv/bin/pytest" 1 0 30000).head? =
      some "/ws/p/.testforge_venv/bin/pytest" := by
  have hall := C9_pytest_detection
    { baseExists := true, baseIsDir := true, baseReadable := true,
      basePath := "/ws/p", npx := none, playwrightRoot := none,
      pytestHit := some ("pyproject.toml", "/ws/p"),
      venvPytestExists := true, whichPytest := none,
      npm := none, pkgJsonTestScript := false }
    (some "/ws/p/.testforge_venv/bin") "/usr/local/bin/python3" 1 0 30000 none
    "pyproject.toml" "/ws/p" rfl rfl rfl (Or.inl rfl) rfl
  exact ⟨hall.1,
    hall.2.1 "/ws/p/.testforge_venv/bin" rfl rfl,
    hall.2.2.2.2 "/ws/p/.testforge_venv/bin/pytest" (by decide)⟩

/-- Witness for C10: a run whose only outcome is an error is marked passed. -/
theorem C10_passed_iff_no_failed_witness :
    (completeRun sampleRun
        [{ test_name := "t", test_file := none, test_suite := none,
           test_layer := "backend", status := TestResultStatus.error,
           duration_ms := none, error_message := none, error_stack := none }]
        100 200).status = TestRunStatus.passed :=
  (C10_passed_iff_no_failed sampleRun _ 100 200 (by decide)).2
    (by intro o ho; simp at ho; rw [ho])

/-- Looking up a key in an appended environment checks the left part first. -/
theorem envLookup_append (l₁ l₂ : List (String × String)) (k : String) :
    envLookup (l₁ ++ l₂) k = (envLookup l₁ k).or (envLookup l₂ k) := by
  unfold envLookup
  rw [List.find?_append]
  cases l₁.find? (fun e => e.1 == k) <;> rfl

/-- A singleton environment with a different key yields nothing. -/
theorem envLookup_single_ne (k k' v' : String) (h : k' ≠ k) :
    envLookup [(k', v')] k = none := by
  simp [envLookup, h]

/-- A singleton environment with the same key yields its value. -/
theorem envLookup_single_eq (k v : String) : envLookup [(k, v)] k = some v := by
  simp [envLookup]

/-- Membership agrees with lookup. -/
theorem envContains_eq_isSome (env : List (String × String)) (k : String) :
    envContains env k = (envLookup env k).isSome := by
  unfold envContains envLookup
  cases env.find? (fun e => e.1 == k) <;> rfl

/-- `find?` by key commutes with mapping a key-preserving function. -/
theorem assocFind?Map {β : Type} (l : List (String × β)) (k : String)
    (g : String × β → String × β) (hg : ∀ e, (g e).1 = e.1) :
    (l.map g).find? (fun e => e.1 == k) = (l.find? (fun e => e.1 == k)).map g := by
  induction l with
  | nil => rfl
  | cons a t ih =>
    cases hk : (a.1 == k) with
    | true => simp [hg, hk]
    | false => simp [hg, hk, ih]

/-- A present binding survives `envSetIfAbsent` for any key. -/
theorem envLookup_setIfAbsent_preserve {env : List (String × String)} {k v : String}
    (k' v' : String) (h : envLookup env k = some v) :
    envLookup (envSetIfAbsent env k' v') k = some v := by
  unfold envSetIfAbsent
  split
  · exact h
  · rw [envLookup_append, h]
    rfl

/-- `envSetIfAbsent` at a different key does not change a lookup. -/
theorem envLookup_setIfAbsent_ne (env : List (String × String)) (k k' v' : String)
    (hne : k ≠ k') :
    envLookup (envSetIfAbsent env k' v') k = envLookup env k := by
  unfold envSetIfAbsent
  split
  · rfl
  · rw [envLookup_append, envLookup_single_ne _ _ _ (fun hh => hne hh.symm)]
    cases envLookup env k <;> rfl

/-- `envSetIfAbsent` at an absent key stores its value. -/
theorem envLookup_setIfAbsent_absent (env : List (String × String)) (k v : String)
    (h : envLookup env k = none) :
    envLookup (envSetIfAbsent env k v) k = some v := by
  unfold envSetIfAbsent
  have hc : envContains env k = false := by
    rw [envContains_eq_isSome, h]
    rfl
  rw [if_neg (by rw [hc]; exact Bool.false_ne_true), envLookup_append, h,
      envLookup_single_eq]
  rfl

/-- `envSet` at a different key does not change a lookup. -/
theorem envLookup_set_ne (env : List (String × String)) (k k' v' : String)
    (hne : k ≠ k') :
    envLookup (envSet env k' v') k = envLookup env k := by
  unfold envSet
  split
  · unfold envLookup
    rw [assocFind?Map env k _
          (fun e => by
            by_cases hb : (e.1 == k') = true
            · simp [hb]
            · simp [hb])]
    cases hf : env.find? (fun e => e.1 == k) with
    | none => rfl
    | some e =>
      have hkey : e.1 = k := by simpa using List.find?_some hf
      have hne2 : ¬ e.1 = k' := by rw [hkey]; exact hne
      simp [hne2]
  · rw [envLookup_append, envLookup_single_ne _ _ _ (fun hh => hne hh.symm)]
    cases envLookup env k <;> rfl

/-- A present binding survives a guarded `setIfAbsentWhen` step. -/
theorem setIfAbsentWhen_preserve {env : List (String × String)} {k v : String}
    (c : Bool) (k' v' : String) (h : envLookup env k = some v) :
    envLookup (setIfAbsentWhen c k' v' env) k = some v := by
  unfold setIfAbsentWhen
  split
  · exact envLookup_setIfAbsent_preserve k' v' h
  · exact h

/-- A `setIfAbsentWhen` step at a different key does not change a lookup. -/
theorem setIfAbsentWhen_ne (env : List (String × String)) (c : Bool)
    (k k' v' : String) (hne : k ≠ k') :
    envLookup (setIfAbsentWhen c k' v' env) k = envLookup env k := by
  unfold setIfAbsentWhen
  split
  · exact envLookup_setIfAbsent_ne env k k' v' hne
  · rfl

/-- A `setIfAbsentWhen` step with a true guard stores its value at an absent
key. -/
theorem setIfAbsentWhen_set (env : List (String × String)) (c : Bool)
    (k v : String) (hc : c = true) (h : envLookup env k = none) :
    envLookup (setIfAbsentWhen c k v env) k = some v := by
  unfold setIfAbsentWhen
  rw [if_pos hc]
  exact envLookup_setIfAbsent_absent env k v h

/-- A present binding at a key other than the two token aliases survives the
auth-token step. -/
theorem applyLoginToken_preserve {env : List (String × String)} {k v : String}
    (email password backendUrl : String) (tok : Option String)
    (hk1 : k ≠ "ACCESS_TOKEN") (hk2 : k ≠ "AUTHORIZATION")
    (h : envLookup env k = some v) :
    envLookup (applyLoginToken email password backendUrl tok env) k = some v := by
  unfold applyLoginToken
  split
  · next hcond =>
    cases tok with
    | none => exact h
    | some t =>
      by_cases hk3 : k = "TEST_AUTH_TOKEN"
      · exfalso
        apply hcond.2.2.2
        rw [← hk3, envContains_eq_isSome, h]
        rfl
      · rw [envLookup_set_ne _ _ _ _ hk2, envLookup_set_ne _ _ _ _ hk1,
            envLookup_set_ne _ _ _ _ hk3]
        exact h
  · exact h

/-- A present binding at a key other than the two token aliases survives the
whole credential/URL block. -/
theorem injectCredentials_preserve (cfg : ProjectCfg) (tok : Option String)
    (fix : String → String) {env : List (String × String)} {k v : String}
    (hk1 : k ≠ "ACCESS_TOKEN") (hk2 : k ≠ "AUTHORIZATION")
    (h : envLookup env k = some v) :
    envLookup (injectCredentials cfg tok fix env) k = some v :=
  applyLoginToken_preserve _ _ _ _ hk1 hk2
    (setIfAbsentWhen_preserve _ _ _
      (setIfAbsentWhen_preserve _ _ _
        (setIfAbsentWhen_preserve _ _ _
          (setIfAbsentWhen_preserve _ _ _
            (setIfAbsentWhen_preserve _ _ _ h)))))

/-- A present binding survives one `.env` line. -/
theorem applyDotenvLine_preserve (fix : String → String)
    {env : List (String × String)} {k v : String} (rawLine : String)
    (h : envLookup env k = some v) :
    envLookup (applyDotenvLine fix env rawLine) k = some v := by
  unfold applyDotenvLine
  cases hp : parseDotenvLine rawLine with
  | none => exact h
  | some kv =>
    obtain ⟨key, val⟩ := kv
    show envLookup (if key ≠ "" ∧ ¬ envContains env key
        then envSet env key (fix val) else env) k = some v
    split
    · next hcond =>
      have hkne : k ≠ key := by
        intro heq
        apply hcond.2
        rw [← heq, envContains_eq_isSome, h]
        rfl
      rw [envLookup_set_ne _ _ _ _ hkne]
      exact h
    · exact h

/-- A present binding survives one whole `.env` file. -/
theorem foldlDotenv_preserve (fix : String → String) (lines : List String)
    {env : List (String × String)} {k v : String}
    (h : envLookup env k = some v) :
    envLookup (lines.foldl (applyDotenvLine fix) env) k = some v := by
  induction lines generalizing env with
  | nil => exact h
  | cons l t ih => exact ih (applyDotenvLine_preserve fix l h)

/-- A present binding survives the whole `.env` loading pass. -/
theorem loadDotenv_preserve (fix : String → String)
    (files : List (List String)) {env : List (String × String)} {k v : String}
    (h : envLookup env k = some v) :
    envLookup (loadDotenv fix files env) k = some v := by
  unfold loadDotenv
  induction files generalizing env with
  | nil => exact h
  | cons f t ih => exact ih (foldlDotenv_preserve fix f h)

/-- Counterexample for C2: with `BACKEND_URL` explicitly configured and a
different computed backend base URL, `buildEnv` keeps the configured value —
the computed value does not override it, contradicting the claimed
precedence. -/
theorem C2_counterexample_configured_beats_computed :
    envLookup (buildEnv true
        { env_vars := [("BACKEND_URL", "http://cfg.example:1")],
          test_login_email := "", test_login_password := "",
          backend_url := "http://computed.example:2", frontend_url := "" }
        none false [] false (fun s => s)) "BACKEND_URL" =
      some "http://cfg.example:1" ∧
    some "http://cfg.example:1" ≠
      some (fixHostUrl false (fun s => s) "http://computed.example:2") := by
  constructor
  · decide
  · decide

/-- C2 amended: the merge precedence is, lowest to highest, `.env` values,
then computed base URLs, then explicitly configured variables — a configured
variable (other than the token aliases `ACCESS_TOKEN`/`AUTHORIZATION`)
overrides computed and `.env` values for the same key, and a computed
backend/frontend base URL overrides any `.env` value for its key. -/
theorem C2_amended_env_precedence (cfg : ProjectCfg) (loginToken : Option String)
    (isWorkspace : Bool) (dotenvFiles : List (List String))
    (isDocker : Bool) (rewrite : String → String) (k v : String) :
    (k ≠ "ACCESS_TOKEN" → k ≠ "AUTHORIZATION" →
      envLookup cfg.env_vars k = some v →
      envLookup (buildEnv true cfg loginToken isWorkspace dotenvFiles
        isDocker rewrite) k = some v) ∧
    (envLookup cfg.env_vars "BACKEND_URL" = none →
      fixHostUrl isDocker rewrite cfg.backend_url ≠ "" →
      envLookup (buildEnv true cfg loginToken isWorkspace dotenvFiles
        isDocker rewrite) "BACKEND_URL" =
        some (fixHostUrl isDocker rewrite cfg.backend_url)) ∧
    (envLookup cfg.env_vars "FRONTEND_URL" = none →
      cfg.frontend_url ≠ "" →
      envLookup (buildEnv true cfg loginToken isWorkspace dotenvFiles
        isDocker rewrite) "FRONTEND_URL" =
        some (fixHostUrl isDocker rewrite cfg.frontend_url)) := by
  refine ⟨?_, ?_, ?_⟩
  · intro hk1 hk2 hcfg
    cases isWorkspace with
    | false => exact injectCredentials_preserve cfg loginToken _ hk1 hk2 hcfg
    | true =>
      exact loadDotenv_preserve _ dotenvFiles
        (injectCredentials_preserve cfg loginToken _ hk1 hk2 hcfg)
  · intro hnone hurl
    have hc : (fixHostUrl isDocker rewrite cfg.backend_url != "") = true :=
      bne_iff_ne.mpr hurl
    have h2 : envLookup
        (setIfAbsentWhen (cfg.test_login_password != "") "TEST_LOGIN_PASSWORD"
          cfg.test_login_password
          (setIfAbsentWhen (cfg.test_login_email != "") "TEST_LOGIN_EMAIL"
            cfg.test_login_email cfg.env_vars)) "BACKEND_URL" = none := by
      rw [setIfAbsentWhen_ne _ _ _ _ _ (by decide),
          setIfAbsentWhen_ne _ _ _ _ _ (by decide)]
      exact hnone
    have h3 := setIfAbsentWhen_set _ _ _
      (fixHostUrl isDocker rewrite cfg.backend_url) hc h2
    have h3a := setIfAbsentWhen_preserve
      (fixHostUrl isDocker rewrite cfg.backend_url != "") "API_BASE_URL"
      (fixHostUrl isDocker rewrite cfg.backend_url) h3
    have h4 := setIfAbsentWhen_preserve
      (cfg.frontend_url != "") "FRONTEND_URL"
      (fixHostUrl isDocker rewrite cfg.frontend_url) h3a
    have h5 := applyLoginToken_preserve cfg.test_login_email cfg.test_login_password
      (fixHostUrl isDocker rewrite cfg.backend_url) loginToken
      (by decide) (by decide) h4
    cases isWorkspace with
    | false => exact h5
    | true => exact loadDotenv_preserve _ dotenvFiles h5
  · intro hnone hurl
    have hc : (cfg.frontend_url != "") = true := bne_iff_ne.mpr hurl
    have h2 : envLookup
        (setIfAbsentWhen (fixHostUrl isDocker rewrite cfg.backend_url != "")
          "API_BASE_URL" (fixHostUrl isDocker rewrite cfg.backend_url)
          (setIfAbsentWhen (fixHostUrl isDocker rewrite cfg.backend_url != "")
            "BACKEND_URL" (fixHostUrl isDocker rewrite cfg.backend_url)
            (setIfAbsentWhen (cfg.test_login_password != "") "TEST_LOGIN_PASSWORD"
              cfg.test_login_password
              (setIfAbsentWhen (cfg.test_login_email != "") "TEST_LOGIN_EMAIL"
                cfg.test_login_email cfg.env_vars)))) "FRONTEND_URL" = none := by
      rw [setIfAbsentWhen_ne _ _ _ _ _ (by decide),
          setIfAbsentWhen_ne _ _ _ _ _ (by decide),
          setIfAbsentWhen_ne _ _ _ _ _ (by decide),
          setIfAbsentWhen_ne _ _ _ _ _ (by decide)]
      exact hnone
    have h3 := setIfAbsentWhen_set _ _ _
      (fixHostUrl isDocker rewrite cfg.frontend_url) hc h2
    have h4 := applyLoginToken_preserve cfg.test_login_email cfg.test_login_password
      (fixHostUrl isDocker rewrite cfg.backend_url) loginToken
      (by decide) (by decide) h3
    cases isWorkspace with
    | false => exact h4
    | true => exact loadDotenv_preserve _ dotenvFiles h4

/-- Witness for the amended C2 on a concrete configuration with one `.env`
file that also defines `BACKEND_URL`. -/
theorem C2_amended_env_precedence_witness :
    envLookup (buildEnv true sampleCfg none true
        [["BACKEND_URL=http://denv:9", "NEW_KEY=nv"]] false (fun s => s))
      "FOO" = some "bar" ∧
    envLookup (buildEnv true sampleCfg none true
        [["BACKEND_URL=http://denv:9", "NEW_KEY=nv"]] false (fun s => s))
      "BACKEND_URL" = some (fixHostUrl false (fun s => s) "http://b:1") ∧
    envLookup (buildEnv true sampleCfg none true
        [["BACKEND_URL=http://denv:9", "NEW_KEY=nv"]] false (fun s => s))
      "FRONTEND_URL" = some (fixHostUrl false (fun s => s) "http://f:3") := by
  have hall := C2_amended_env_precedence sampleCfg none true
    [["BACKEND_URL=http://denv:9", "NEW_KEY=nv"]] false (fun s => s) "FOO" "bar"
  exact ⟨hall.1 (by decide) (by decide) (by decide),
    hall.2.1 (by decide) (by decide),
    hall.2.2 (by decide) (by decide)⟩

end TestForge
